import Mathlib

/-!
Verification of the hymn broadcast timeline engine.

This development is a shallow embedding of the core scheduling logic of the
repository: the segment data model (src/lib/types.ts), the live playback
locator (src/lib/radioStation.ts), the radio-format block scheduler
(src/lib/musicSelector.ts), the block-engine assembly path (the Core Block
Engine in src/lib/types.ts part of the bundle), the content strategy
resolver (analyzeBlock, OpenAI utilities file), and the broadcast session
store (src/lib/broadcastSession.ts).

Conventions of the embedding:
 - Absolute timestamps (JavaScript Date values) are integers of milliseconds
   since an epoch aligned to minute boundaries; `Date` arithmetic such as
   `setMinutes(Math.floor(m / 30) * 30, 0, 0)` becomes flooring to a
   multiple of 1800000 ms, and `Math.floor((a - b) / 1000)` becomes
   `Int.fdiv (a - b) 1000` (floor division, as in JavaScript).
 - Segment offsets and durations are integers of seconds, as in the source.
 - JavaScript numbers used as volumes are rationals.
 - Calls into external collaborators (calendar fetch, news fetch, OpenAI
   completion, Spotify track queries, TTS) are potential-failure boundaries;
   each is passed in explicitly as an `Except String` outcome (or a plain
   value where the source function can never throw), so the control flow of
   the embedded functions is exactly the control flow of the source.
 - The ambient wall clock (`new Date()` / `Date.now()`) is passed explicitly
   as an integer parameter.
-/

namespace Hymn

/-! ## Segment data model (src/lib/types.ts) -/

inductive MusicStyle
  | ambient | focus | energetic | upbeat | calm | silent
deriving DecidableEq

inductive VoiceFrequency
  | none | minimal | moderate | active
deriving DecidableEq

inductive InterruptionLevel
  | none | low | medium | high
deriving DecidableEq

inductive Priority
  | low | medium | high
deriving DecidableEq

structure BlockStrategy where
  musicStyle : MusicStyle
  musicVolume : ℚ
  voiceFrequency : VoiceFrequency
  interruptionLevel : InterruptionLevel
  reasoning : String
deriving DecidableEq

structure VoiceSegment where
  id : String
  timing : Int
  content : String
  duration : Int
  audioUrl : Option String
  priority : Priority
deriving DecidableEq

structure MusicSegment where
  timing : Int
  duration : Int
  spotifyUri : Option String
  playlistId : Option String
  volume : ℚ
  fadeIn : Option Int
  fadeOut : Option Int
deriving DecidableEq

structure AudioBlock where
  id : String
  startTime : Int
  endTime : Int
  strategy : BlockStrategy
  voiceContent : List VoiceSegment
  musicContent : List MusicSegment
  generatedAt : Int
deriving DecidableEq

/-- CalendarEvent (src/lib/types.ts); the `end` field is renamed `endsAt`
because `end` is a reserved word in Lean. -/
structure CalendarEvent where
  id : String
  summary : String
  start : Int
  endsAt : Int
  attendees : List String
deriving DecidableEq

/-! ## Live playback locator (src/lib/radioStation.ts) -/

inductive SegKind
  | music | voice
deriving DecidableEq

/-- The `segment` payload carried by an entry of the merged `allSegments`
array in `getCurrentPlaybackPosition`: either a music or a voice segment. -/
inductive SegPayload
  | music (m : MusicSegment)
  | voice (v : VoiceSegment)
deriving DecidableEq

/-- One entry of the merged `allSegments` array: segment type, the segment
itself, and its absolute start and end offsets within the block (seconds). -/
structure TimedSeg where
  kind : SegKind
  payload : SegPayload
  startTime : Int
  endTime : Int
deriving DecidableEq

def musicTimed (m : MusicSegment) : TimedSeg :=
  { kind := .music, payload := .music m,
    startTime := m.timing, endTime := m.timing + m.duration }

def voiceTimed (v : VoiceSegment) : TimedSeg :=
  { kind := .voice, payload := .voice v,
    startTime := v.timing, endTime := v.timing + v.duration }

/-- The merged segment array built by `getCurrentPlaybackPosition`: music
segments are pushed first, then voice segments. -/
def allSegments (b : AudioBlock) : List TimedSeg :=
  b.musicContent.map musicTimed ++ b.voiceContent.map voiceTimed

/-- The merged array sorted by `startTime`. JavaScript `Array.sort` with the
comparator `a.startTime - b.startTime` is a stable ascending sort, which is
exactly `List.insertionSort` with the non-strict order on `startTime`. -/
def sortedSegments (b : AudioBlock) : List TimedSeg :=
  (allSegments b).insertionSort (fun x y => x.startTime ≤ y.startTime)

/-- The result record of `getCurrentPlaybackPosition`. -/
structure PlaybackPosition where
  currentSegment : Option SegPayload
  segmentType : Option SegKind
  positionInSegment : Int
  totalElapsed : Int
deriving DecidableEq

/-- getCurrentPlaybackPosition (src/lib/radioStation.ts, lines 8-89), with the
wall clock `now` (read from `new Date()` in the source) passed explicitly. -/
def getCurrentPlaybackPosition (block : AudioBlock) (now : Int) : PlaybackPosition :=
  let elapsedSeconds := Int.fdiv (now - block.startTime) 1000
  if elapsedSeconds < 0 then
    { currentSegment := none, segmentType := none,
      positionInSegment := 0, totalElapsed := 0 }
  else
    let blockDuration := Int.fdiv (block.endTime - block.startTime) 1000
    if blockDuration ≤ elapsedSeconds then
      { currentSegment := none, segmentType := none,
        positionInSegment := 0, totalElapsed := elapsedSeconds }
    else
      match (sortedSegments block).find?
          (fun it => decide (it.startTime ≤ elapsedSeconds) &&
                     decide (elapsedSeconds < it.endTime)) with
      | some it =>
        { currentSegment := some it.payload, segmentType := some it.kind,
          positionInSegment := elapsedSeconds - it.startTime,
          totalElapsed := elapsedSeconds }
      | none =>
        { currentSegment := none, segmentType := none,
          positionInSegment := 0, totalElapsed := elapsedSeconds }

/-! ## Radio-format block scheduler (src/lib/musicSelector.ts) -/

/-- A Spotify track as consumed by the schedulers: an opaque URI and a
non-negative duration in milliseconds. -/
structure Track where
  uri : String
  duration_ms : Nat
deriving DecidableEq

def BLOCK_DURATION_MINUTES : Nat := 30

def PRELOAD_HOURS : Nat := 12

def BLOCKS_TO_GENERATE : Nat := (PRELOAD_HOURS * 60) / BLOCK_DURATION_MINUTES

/-- The result shape of `analyzeBlock` as consumed by the schedulers. -/
structure AnalyzeResult where
  strategy : BlockStrategy
  voiceContent : List VoiceSegment
  musicRecommendation : String
deriving DecidableEq

/-- Outcomes of the external collaborator calls made while generating one
radio block (`generateRadioBlock`): the calendar fetch, the strategy
resolver, per-segment TTS, and the Spotify track query.  `getTopHeadlines`
catches all of its errors internally and so has no failure outcome that the
scheduler can observe; its value only feeds `analyzeBlock`, whose outcome is
already the `analyze` field. -/
structure Collab where
  events : Except String (List CalendarEvent)
  analyze : Except String AnalyzeResult
  tts : VoiceSegment → Option String
  tracks : Except String (List Track)
  generatedAt : Int

/-- Voice slot selection of `createRadioSegments`: `{...voiceContent[i],
timing, duration: 60}` followed by the `.filter(v => v.content)` truthiness
filter (an absent element spreads to an empty object whose `content` is
undefined, and an empty string is falsy). -/
def pickVoice (voiceContent : List VoiceSegment) (i : Nat) (t : Int) : List VoiceSegment :=
  match voiceContent.get? i with
  | some v => if v.content = "" then [] else [{ v with timing := t, duration := 60 }]
  | none => []

structure RadioSegments where
  voice : List VoiceSegment
  musicDurations : List (Int × Int)

/-- createRadioSegments (src/lib/musicSelector.ts, lines 463-492): two fixed
voice slots at 780s and 1740s (60s each) and two music spans, 0-780s and
840-1740s.  The strategy argument is accepted and ignored, as in the
source. -/
def createRadioSegments (strategy : BlockStrategy) (voiceContent : List VoiceSegment) :
    RadioSegments :=
  { voice := pickVoice voiceContent 0 780 ++ pickVoice voiceContent 1 1740,
    musicDurations := [(0, 780), (840, 900)] }

/-- The track-packing loop inside `generateMusicForBlock` for one music span:
`fuel` is the remaining iteration budget `tracksNeeded - i`, `cur` is
`currentTime`.  Each placed track is truncated to the end of the span
(`Math.min(floor(duration_ms / 1000), start + duration - currentTime)`) and
the loop breaks once `currentTime >= start + duration`. -/
def packTracks : List Track → Nat → Int → Int → Int → List MusicSegment
  | _, 0, _, _, _ => []
  | [], _ + 1, _, _, _ => []
  | t :: ts, n + 1, start, dur, cur =>
    let trackDuration := min ((t.duration_ms / 1000 : Nat) : Int) (start + dur - cur)
    let seg : MusicSegment :=
      { timing := cur, duration := trackDuration, spotifyUri := some t.uri,
        playlistId := none, volume := mkRat 7 10,
        fadeIn := some (if cur = start then 2 else 0), fadeOut := some 1 }
    if start + dur ≤ cur + trackDuration then [seg]
    else seg :: packTracks ts n start dur (cur + trackDuration)

/-- Math.ceil(duration / 180), the per-span track budget. -/
def tracksNeeded (dur : Int) : Nat := (dur.toNat + 179) / 180

/-- generateMusicForBlock (src/lib/musicSelector.ts, lines 497-532): fill each
span with tracks, truncating the final track to the span boundary. -/
def generateMusicForBlock (tracks : List Track) (durations : List (Int × Int)) :
    List MusicSegment :=
  durations.flatMap (fun sd => packTracks tracks (tracksNeeded sd.2) sd.1 sd.2 sd.1)

/-- generateMultipleSpeechSegments applied to one segment: on TTS success the
segment gains an `audioUrl`; a TTS failure is caught and the segment is
returned unchanged.  Timing and duration are never touched. -/
def applyTTS (tts : VoiceSegment → Option String) (s : VoiceSegment) : VoiceSegment :=
  match tts s with
  | some url => { s with audioUrl := some url }
  | none => s

/-- generateRadioBlock (src/lib/musicSelector.ts, lines 414-458).  Any
collaborator failure (calendar fetch, analyzeBlock, Spotify query) propagates
as an error, to be caught by `generateBlockSchedule`. -/
def generateRadioBlock (c : Collab) (startTime endTime : Int) (blockIndex : Nat) :
    Except String AudioBlock := do
  let _ ← c.events
  let r ← c.analyze
  let radioSegments := createRadioSegments r.strategy r.voiceContent
  let voiceWithAudio := radioSegments.voice.map (applyTTS c.tts)
  let tracks ← c.tracks
  let musicSegments := generateMusicForBlock tracks radioSegments.musicDurations
  pure {
    id := "block-" ++ toString startTime,
    startTime := startTime,
    endTime := endTime,
    strategy := r.strategy,
    voiceContent := voiceWithAudio,
    musicContent := musicSegments,
    generatedAt := c.generatedAt }

def demoTracks : List String :=
  ["spotify:track:3n3Ppam7vgaVa1iaRUc9Lp",
   "spotify:track:5HCyWlXZPP0y6Gqq8TgA20",
   "spotify:track:0VjIjW4GlUZAMYd2vXMi3b",
   "spotify:track:6DCZcSspjsKoFjzjrWoCdn"]

def fallbackStyles : List MusicStyle := [.focus, .ambient, .energetic, .upbeat]

/-- createFallbackBlock (src/lib/musicSelector.ts, lines 537-571): a single
full-duration music segment, no voice.  The source stamps `generatedAt` from
the ambient clock, passed here as `now`. -/
def createFallbackBlock (startTime endTime : Int) (blockIndex : Nat) (now : Int) :
    AudioBlock :=
  { id := "fallback-block-" ++ toString startTime,
    startTime := startTime,
    endTime := endTime,
    strategy :=
      { musicStyle := fallbackStyles.getD (blockIndex % 4) .focus,
        musicVolume := mkRat 7 10, voiceFrequency := .moderate,
        interruptionLevel := .low, reasoning := "Demo mode - AI unavailable" },
    voiceContent := [],
    musicContent :=
      [{ timing := 0, duration := 1800,
         spotifyUri := some (demoTracks.getD (blockIndex % demoTracks.length) ""),
         playlistId := none, volume := mkRat 7 10, fadeIn := none, fadeOut := none }],
    generatedAt := now }

/-- The 30-minute flooring of `generateBlockSchedule`:
`blockStart.setMinutes(Math.floor(m / 30) * 30, 0, 0)` replaces `now` by the
greatest multiple of 30 minutes not exceeding it. -/
def alignToBlockStart (now : Int) : Int := 1800000 * Int.fdiv now 1800000

/-- generateBlockSchedule (src/lib/musicSelector.ts, lines 372-409): 24
consecutive 30-minute blocks starting at the 30-minute floor of `now`; a
failed block generation is replaced by the fallback block for that index. -/
def generateBlockSchedule (collab : Nat → Collab) (now : Int) : List AudioBlock :=
  (List.range BLOCKS_TO_GENERATE).map (fun i =>
    let blockStart := alignToBlockStart now + Int.ofNat i * 1800000
    let blockEnd := blockStart + 1800000
    match generateRadioBlock (collab i) blockStart blockEnd i with
    | .ok b => b
    | .error _ => createFallbackBlock blockStart blockEnd i now)

/-! ## Block validity (the containment / overlap invariant, spec section 8) -/

/-- Two timed segments have non-intersecting half-open ranges
`[startTime, endTime)`. -/
def segDisjoint (a b : TimedSeg) : Prop :=
  min a.endTime b.endTime ≤ max a.startTime b.startTime

instance : DecidableRel segDisjoint := fun a b =>
  inferInstanceAs (Decidable (min a.endTime b.endTime ≤ max a.startTime b.startTime))

/-- Block duration in seconds, `endTime - startTime` converted as the source
converts it. -/
def blockDurationSeconds (b : AudioBlock) : Int :=
  Int.fdiv (b.endTime - b.startTime) 1000

/-- The containment / overlap invariant of a block: in the merged,
timing-sorted sequence of voice and music segments, no two segments have
intersecting `[timing, timing + duration)` ranges, and every segment (hence
in particular the last) ends at or before the block duration. -/
def blockValid (b : AudioBlock) : Prop :=
  (sortedSegments b).Pairwise segDisjoint ∧
  ∀ s ∈ sortedSegments b, s.endTime ≤ blockDurationSeconds b

instance (b : AudioBlock) : Decidable (blockValid b) :=
  inferInstanceAs (Decidable (_ ∧ _))

/-! ## Block-engine assembly path (Core Block Engine, bundled with
src/lib/types.ts) -/

/-- The inner loop of `createMusicSegments` in the block engine: tracks are
laid out consecutively from offset 0, each at its full duration; the loop
stops before placing a track only once `currentTime >= durationSeconds`, so
the final placed track is never truncated to the block boundary. -/
def createMusicSegmentsGo (strategy : BlockStrategy) (durationSeconds : Int) :
    List Track → Int → List MusicSegment
  | [], _ => []
  | t :: ts, cur =>
    if durationSeconds ≤ cur then []
    else
      let trackDuration := ((t.duration_ms / 1000 : Nat) : Int)
      { timing := cur, duration := trackDuration, spotifyUri := some t.uri,
        playlistId := none, volume := strategy.musicVolume,
        fadeIn := some (if cur = 0 then 2 else 0), fadeOut := some 2 }
        :: createMusicSegmentsGo strategy durationSeconds ts (cur + trackDuration)

/-- createMusicSegments (Core Block Engine, lines 540-566 of the bundled
file). -/
def createMusicSegments (tracks : List Track) (strategy : BlockStrategy)
    (durationSeconds : Int) : List MusicSegment :=
  createMusicSegmentsGo strategy durationSeconds tracks 0

/-- Collaborator outcomes for `generateAudioBlock` (the block-engine path):
music profile build, calendar fetch, strategy resolver, TTS, the personalized
recommendation query, and the generic mood fallback query. -/
structure EngineCollab where
  profile : Except String Unit
  events : Except String (List CalendarEvent)
  analyze : Except String AnalyzeResult
  tts : VoiceSegment → Option String
  tracks : Except String (List Track)
  fallbackTracks : Except String (List Track)
  generatedAt : Int

/-- generatePersonalizedMusicSegments (Core Block Engine, lines 508-535). -/
def generatePersonalizedMusicSegments (strategy : BlockStrategy)
    (recommended fallback : Except String (List Track)) (durationSeconds : Int) :
    Except String (List MusicSegment) :=
  if strategy.musicStyle = .silent then .ok []
  else do
    let tracks ← recommended
    if tracks.isEmpty then
      let fb ← fallback
      pure (createMusicSegments fb strategy durationSeconds)
    else
      pure (createMusicSegments tracks strategy durationSeconds)

/-- generateAudioBlock (Core Block Engine, lines 452-503): voice segments keep
the timings chosen by the strategy resolver, and music is laid out by
`createMusicSegments` over a hardcoded 3600-second hour. -/
def generateAudioBlock (c : EngineCollab) (startTime endTime : Int) :
    Except String AudioBlock := do
  let _ ← c.profile
  let _ ← c.events
  let r ← c.analyze
  let voiceSegmentsWithAudio := r.voiceContent.map (applyTTS c.tts)
  let musicSegments ← generatePersonalizedMusicSegments r.strategy c.tracks c.fallbackTracks 3600
  pure {
    id := "block-" ++ toString startTime,
    startTime := startTime,
    endTime := endTime,
    strategy := r.strategy,
    voiceContent := voiceSegmentsWithAudio,
    musicContent := musicSegments,
    generatedAt := c.generatedAt }

/-! ## Content strategy resolver (analyzeBlock, OpenAI utilities file) -/

/-- A voice segment as it appears in the parsed model response, before ids
are attached. -/
structure ParsedVoiceSegment where
  timing : Int
  content : String
  priority : Priority
  duration : Int
deriving DecidableEq

/-- The JSON shape `analyzeBlock` requires of the model response.  A response
that fails `JSON.parse` or lacks the required fields is a parse failure. -/
structure ParsedAnalyzeResponse where
  strategy : BlockStrategy
  voiceContent : List ParsedVoiceSegment
  musicRecommendation : Option String
deriving DecidableEq

/-- analyzeBlock (OpenAI utilities file, lines 23-110).  `completion` is the
outcome of the chat-completion call (which can reject), `parse` is
`JSON.parse` plus the field access `result.voiceContent`; there is no
try/catch anywhere in the function, so both failure modes escape to the
caller.  Fresh ids use `Date.now()`, passed as `nowMs`. -/
def analyzeBlock (completion : Except String String)
    (parse : String → Option ParsedAnalyzeResponse) (nowMs : Int) :
    Except String AnalyzeResult := do
  let content ← completion
  match parse content with
  | none => Except.error "malformed response"
  | some result =>
    pure {
      strategy := result.strategy,
      voiceContent := result.voiceContent.enum.map (fun p =>
        { id := "voice-" ++ toString nowMs ++ "-" ++ toString p.1,
          timing := p.2.timing, content := p.2.content,
          duration := p.2.duration, audioUrl := none,
          priority := p.2.priority }),
      musicRecommendation := result.musicRecommendation.getD "Music matching your mood" }

/-! ## Broadcast session store (src/lib/broadcastSession.ts) -/

structure BroadcastSession where
  id : String
  startTime : Int
  blocks : List AudioBlock
  voiceFiles : List (String × String)
  createdAt : Int
  expiresAt : Int
deriving DecidableEq

def SESSION_DURATION_HOURS : Int := 12

/-- getOrCreateSession (src/lib/broadcastSession.ts, lines 21-75).  The
persisted store (localStorage under the session key) is modelled as
`none` (nothing stored), `some none` (a stored string that fails to parse)
or `some (some s)` (a stored session `s`); the function returns the session
result together with the store after the call.  A valid stored session is
returned unchanged; otherwise a fresh session is created and persisted only
when `blocks` is non-empty, and `null` is returned (store untouched) when
`blocks` is empty. -/
def getOrCreateSession (stored : Option (Option BroadcastSession))
    (blocks : List AudioBlock) (now : Int) :
    Option BroadcastSession × Option (Option BroadcastSession) :=
  let validStored : Option BroadcastSession :=
    match stored with
    | some (some session) => if now < session.expiresAt then some session else none
    | _ => none
  match validStored with
  | some session => (some session, stored)
  | none =>
    match blocks with
    | first :: _ =>
      let session : BroadcastSession :=
        { id := "session-" ++ toString now,
          startTime := first.startTime,
          blocks := blocks,
          voiceFiles := [],
          createdAt := now,
          expiresAt := now + SESSION_DURATION_HOURS * 3600000 }
      (some session, some (some session))
    | [] => (none, stored)

/-- shouldRegenerateSession (src/lib/broadcastSession.ts, lines 130-140): a
pure time comparison; the `calendarEventCount` argument is accepted and
never read. -/
def shouldRegenerateSession (session : BroadcastSession)
    (calendarEventCount : Nat) (now : Int) : Bool :=
  session.expiresAt ≤ now

/-- True when `kw` occurs as a substring of the lowercasing of `s`
(JavaScript `s.toLowerCase().includes(kw)` for non-empty `kw`). -/
def containsKw (s kw : String) : Bool := 2 ≤ (s.toLower.splitOn kw).length

/-- The voice-segment keyword count of `hasCalendarChanged`
(src/lib/musicSelector.ts, lines 596-603): voice segments whose text mentions
meeting, event or calendar. -/
def calendarMentions (blocks : List AudioBlock) : Nat :=
  (blocks.map (fun b =>
    (b.voiceContent.filter (fun v =>
      containsKw v.content "meeting" || containsKw v.content "event" ||
      containsKw v.content "calendar")).length)).sum

/-! ## Shared lemmas -/

lemma mem_sortedSegments (b : AudioBlock) (s : TimedSeg) :
    s ∈ sortedSegments b ↔ s ∈ allSegments b :=
  (List.perm_insertionSort (fun x y => x.startTime ≤ y.startTime) (allSegments b)).mem_iff

/-! ## Claim C1: the concrete playback-locator scenario -/

/-- The voice segment of the C1 scenario: timing 0, duration 30. -/
def c1Voice : VoiceSegment :=
  { id := "voice-1", timing := 0, content := "Good morning, here is your day.",
    duration := 30, audioUrl := none, priority := .high }

/-- The music segment of the C1 scenario: timing 30, duration 770. -/
def c1Music : MusicSegment :=
  { timing := 30, duration := 770, spotifyUri := some "spotify:track:demo",
    playlistId := none, volume := mkRat 7 10, fadeIn := some 2, fadeOut := some 1 }

/-- The C1 scenario block: starts at absolute time `T` (milliseconds), ends at
`T + 800s`, one voice segment and one music segment. -/
def c1Block (T : Int) : AudioBlock :=
  { id := "block-test", startTime := T, endTime := T + 800000,
    strategy :=
      { musicStyle := .focus, musicVolume := mkRat 7 10,
        voiceFrequency := .moderate, interruptionLevel := .low,
        reasoning := "test" },
    voiceContent := [c1Voice], musicContent := [c1Music], generatedAt := T }

lemma c1Block_shift (T x : Int) :
    getCurrentPlaybackPosition (c1Block T) (T + x) =
    getCurrentPlaybackPosition (c1Block 0) x := by
  simp only [getCurrentPlaybackPosition]
  have h1 : T + x - (c1Block T).startTime = x - (c1Block 0).startTime := by
    simp [c1Block]
  have h2 : (c1Block T).endTime - (c1Block T).startTime =
      (c1Block 0).endTime - (c1Block 0).startTime := by
    simp [c1Block]
  have h3 : sortedSegments (c1Block T) = sortedSegments (c1Block 0) := rfl
  rw [h1, h2, h3]

/-- Claim C1: for a block starting at absolute time `T` with one voice segment
at timing 0 (duration 30) and one music segment at timing 30 (duration 770)
in an 800-second block, the playback locator at `T + 15s` returns the voice
segment at offset 15, at `T + 100s` the music segment at offset 70, and at
`T + 900s` returns NotLive (null segment). -/
theorem c1_playback_locator_scenario (T : Int) :
    getCurrentPlaybackPosition (c1Block T) (T + 15000) =
      { currentSegment := some (.voice c1Voice), segmentType := some .voice,
        positionInSegment := 15, totalElapsed := 15 } ∧
    getCurrentPlaybackPosition (c1Block T) (T + 100000) =
      { currentSegment := some (.music c1Music), segmentType := some .music,
        positionInSegment := 70, totalElapsed := 100 } ∧
    getCurrentPlaybackPosition (c1Block T) (T + 900000) =
      { currentSegment := none, segmentType := none,
        positionInSegment := 0, totalElapsed := 900 } := by
  refine ⟨?_, ?_, ?_⟩ <;> rw [c1Block_shift] <;> decide

/-! ## Claim C2: out-of-range and gap behaviour of the locator -/

/-- Claim C2, amended: for every block and query time, with
`elapsed = floor((now - startTime) / 1000)` and the block duration in
seconds,
(1) when `elapsed < 0` the locator returns NotLive with `totalElapsed = 0`
    (the negative elapsed value is not reported),
(2) when `elapsed` is at or past the block duration the locator returns
    NotLive with `totalElapsed = elapsed`, and
(3) when `elapsed` lies inside the block but in a gap between segments the
    locator returns NotLive with a null segment and `totalElapsed = elapsed`. -/
theorem c2_notlive_totalElapsed (block : AudioBlock) (now : Int) :
    (Int.fdiv (now - block.startTime) 1000 < 0 →
      getCurrentPlaybackPosition block now =
        { currentSegment := none, segmentType := none,
          positionInSegment := 0, totalElapsed := 0 }) ∧
    (0 ≤ Int.fdiv (now - block.startTime) 1000 →
     Int.fdiv (block.endTime - block.startTime) 1000 ≤
       Int.fdiv (now - block.startTime) 1000 →
      getCurrentPlaybackPosition block now =
        { currentSegment := none, segmentType := none, positionInSegment := 0,
          totalElapsed := Int.fdiv (now - block.startTime) 1000 }) ∧
    (0 ≤ Int.fdiv (now - block.startTime) 1000 →
     Int.fdiv (now - block.startTime) 1000 <
       Int.fdiv (block.endTime - block.startTime) 1000 →
     (∀ s ∈ allSegments block,
        ¬ (s.startTime ≤ Int.fdiv (now - block.startTime) 1000 ∧
           Int.fdiv (now - block.startTime) 1000 < s.endTime)) →
      getCurrentPlaybackPosition block now =
        { currentSegment := none, segmentType := none, positionInSegment := 0,
          totalElapsed := Int.fdiv (now - block.startTime) 1000 }) := by
  simp only [getCurrentPlaybackPosition]
  refine ⟨?_, ?_, ?_⟩
  · intro h
    rw [if_pos h]
  · intro h0 hd
    rw [if_neg (not_lt.mpr h0), if_pos hd]
  · intro h0 hd hgap
    rw [if_neg (not_lt.mpr h0), if_neg (not_le.mpr hd)]
    have hnone : (sortedSegments block).find?
        (fun it => decide (it.startTime ≤ Int.fdiv (now - block.startTime) 1000) &&
                   decide (Int.fdiv (now - block.startTime) 1000 < it.endTime)) = none := by
      rw [List.find?_eq_none]
      intro x hx
      have hx' := (mem_sortedSegments block x).mp hx
      have hg := hgap x hx'
      simp only [Bool.and_eq_true, decide_eq_true_eq, not_and]
      intro h1 h2
      exact hg ⟨h1, h2⟩
    rw [hnone]

/-- The gap block used to witness C2: one music segment at offset 50s
inside a 100-second block, queried at 10s into the block (a gap). -/
def c2GapBlock : AudioBlock :=
  { id := "gap-block", startTime := 0, endTime := 100000,
    strategy :=
      { musicStyle := .ambient, musicVolume := mkRat 7 10,
        voiceFrequency := .none, interruptionLevel := .none,
        reasoning := "gap test" },
    voiceContent := [],
    musicContent :=
      [{ timing := 50, duration := 10, spotifyUri := some "spotify:track:demo",
         playlistId := none, volume := mkRat 7 10, fadeIn := none, fadeOut := none }],
    generatedAt := 0 }

/-- Witness for C2: the gap case evaluated on a concrete block. -/
theorem c2_notlive_totalElapsed_witness :
    getCurrentPlaybackPosition c2GapBlock 10000 =
      { currentSegment := none, segmentType := none,
        positionInSegment := 0, totalElapsed := 10 } :=
  (c2_notlive_totalElapsed c2GapBlock 10000).2.2 (by decide) (by decide) (by decide)

/-- Counterexample to C2 as stated: when the block has not started
(`elapsed = -10 < 0`), the locator reports `totalElapsed = 0`, not the
elapsed value, so `totalElapsed` is not "still reported" in the
before-start case. -/
theorem c2_negative_elapsed_counterexample :
    getCurrentPlaybackPosition (c1Block 0) (-10000) =
      { currentSegment := none, segmentType := none,
        positionInSegment := 0, totalElapsed := 0 } ∧
    Int.fdiv (-10000 - (c1Block 0).startTime) 1000 = -10 ∧ (0 : Int) ≠ -10 := by
  refine ⟨by decide, by decide, by decide⟩

/-! ## Validity of radio-format blocks -/

lemma segDisjoint_symm : Symmetric segDisjoint := by
  intro a b h
  unfold segDisjoint at *
  rw [min_comm, max_comm]
  exact h

lemma disjoint_of_before {a b : TimedSeg} (h : a.endTime ≤ b.startTime) :
    segDisjoint a b :=
  le_trans (min_le_left _ _) (le_trans h (le_max_right _ _))

lemma disjoint_of_after {a b : TimedSeg} (h : b.endTime ≤ a.startTime) :
    segDisjoint a b :=
  le_trans (min_le_right _ _) (le_trans h (le_max_left _ _))

lemma packTracks_mem :
    ∀ (ts : List Track) (n : Nat) (start dur cur : Int), start ≤ cur →
      cur ≤ start + dur →
      ∀ s ∈ packTracks ts n start dur cur,
        cur ≤ s.timing ∧ 0 ≤ s.duration ∧ s.timing + s.duration ≤ start + dur := by
  intro ts
  induction ts with
  | nil =>
    intro n start dur cur h1 h2 s hs
    cases n <;> simp [packTracks] at hs
  | cons t ts ih =>
    intro n start dur cur h1 h2 s hs
    cases n with
    | zero => simp [packTracks] at hs
    | succ n =>
      simp only [packTracks] at hs
      set td := min ((t.duration_ms / 1000 : Nat) : Int) (start + dur - cur) with htd
      have htd0 : 0 ≤ td := le_min (Int.natCast_nonneg _) (by omega)
      have htd1 : td ≤ start + dur - cur := min_le_right _ _
      by_cases hbr : start + dur ≤ cur + td
      · rw [if_pos hbr] at hs
        simp only [List.mem_singleton] at hs
        subst hs
        refine ⟨le_refl cur, htd0, ?_⟩
        show cur + td ≤ start + dur
        omega
      · rw [if_neg hbr] at hs
        rcases List.mem_cons.mp hs with h | h
        · subst h
          refine ⟨le_refl cur, htd0, ?_⟩
          show cur + td ≤ start + dur
          omega
        · have hrec := ih n start dur (cur + td) (by omega) (by omega) s h
          exact ⟨by omega, hrec.2.1, hrec.2.2⟩

lemma packTracks_chain :
    ∀ (ts : List Track) (n : Nat) (start dur cur : Int), start ≤ cur →
      cur ≤ start + dur →
      (packTracks ts n start dur cur).Pairwise
        (fun a b => a.timing + a.duration ≤ b.timing) := by
  intro ts
  induction ts with
  | nil =>
    intro n start dur cur h1 h2
    cases n <;> simp [packTracks]
  | cons t ts ih =>
    intro n start dur cur h1 h2
    cases n with
    | zero => simp [packTracks]
    | succ n =>
      simp only [packTracks]
      set td := min ((t.duration_ms / 1000 : Nat) : Int) (start + dur - cur) with htd
      have htd0 : 0 ≤ td := le_min (Int.natCast_nonneg _) (by omega)
      have htd1 : td ≤ start + dur - cur := min_le_right _ _
      by_cases hbr : start + dur ≤ cur + td
      · rw [if_pos hbr]
        simp
      · rw [if_neg hbr]
        refine List.pairwise_cons.mpr ⟨?_, ih n start dur (cur + td) (by omega) (by omega)⟩
        intro s hs
        exact (packTracks_mem ts n start dur (cur + td) (by omega) (by omega) s hs).1

lemma pickVoice_cases (vc : List VoiceSegment) (i : Nat) (t : Int) :
    pickVoice vc i t = [] ∨
    ∃ v, pickVoice vc i t = [v] ∧ v.timing = t ∧ v.duration = 60 := by
  unfold pickVoice
  cases vc.get? i with
  | none => exact Or.inl rfl
  | some v =>
    by_cases h : v.content = ""
    · exact Or.inl (by simp [h])
    · refine Or.inr ⟨{ v with timing := t, duration := 60 }, ?_, rfl, rfl⟩
      simp [h]

lemma applyTTS_timing (f : VoiceSegment → Option String) (v : VoiceSegment) :
    (applyTTS f v).timing = v.timing ∧ (applyTTS f v).duration = v.duration := by
  unfold applyTTS
  cases f v <;> simp

/-- Every segment in the voice slot list of the radio layout has `[timing,
timing + duration)` equal to `[780, 840)` or `[1740, 1800)`. -/
lemma radioVoice_mem (vc : List VoiceSegment) (tts : VoiceSegment → Option String) :
    ∀ v ∈ (pickVoice vc 0 780 ++ pickVoice vc 1 1740).map (applyTTS tts),
      (v.timing = 780 ∨ v.timing = 1740) ∧ v.duration = 60 := by
  intro v hv
  rcases List.mem_map.mp hv with ⟨w, hw, hvw⟩
  rcases List.mem_append.mp hw with h | h
  · rcases pickVoice_cases vc 0 780 with hc | ⟨u, hu, hut, hud⟩
    · rw [hc] at h; cases h
    · rw [hu] at h
      simp only [List.mem_singleton] at h
      subst h
      have := applyTTS_timing tts w
      subst hvw
      exact ⟨Or.inl (by rw [this.1, hut]), by rw [this.2, hud]⟩
  · rcases pickVoice_cases vc 1 1740 with hc | ⟨u, hu, hut, hud⟩
    · rw [hc] at h; cases h
    · rw [hu] at h
      simp only [List.mem_singleton] at h
      subst h
      have := applyTTS_timing tts w
      subst hvw
      exact ⟨Or.inr (by rw [this.1, hut]), by rw [this.2, hud]⟩

lemma radioVoice_pairwise (vc : List VoiceSegment) (tts : VoiceSegment → Option String) :
    ((pickVoice vc 0 780 ++ pickVoice vc 1 1740).map (applyTTS tts)).Pairwise
      (fun a b => a.timing + a.duration ≤ b.timing) := by
  rcases pickVoice_cases vc 0 780 with h0 | ⟨u, hu, hut, hud⟩
  · rcases pickVoice_cases vc 1 1740 with h1 | ⟨w, hw, hwt, hwd⟩
    · simp [h0, h1]
    · simp [h0, hw]
  · rcases pickVoice_cases vc 1 1740 with h1 | ⟨w, hw, hwt, hwd⟩
    · simp [hu, h1]
    · rw [hu, hw]
      simp only [List.cons_append, List.nil_append, List.map_cons, List.map_nil]
      refine List.pairwise_cons.mpr ⟨?_, by simp⟩
      intro b hb
      simp only [List.mem_singleton] at hb
      subst hb
      rw [(applyTTS_timing tts u).1, (applyTTS_timing tts u).2,
        (applyTTS_timing tts w).1, hut, hud, hwt]
      norm_num

lemma packTracks_mapped_pairwise (tr : List Track) (n : Nat) (start dur : Int)
    (h : 0 ≤ dur) :
    ((packTracks tr n start dur start).map musicTimed).Pairwise segDisjoint := by
  rw [List.pairwise_map]
  exact (packTracks_chain tr n start dur start (le_refl _) (by omega)).imp
    (fun hab => disjoint_of_before hab)

lemma packTracks_mapped_mem (tr : List Track) (n : Nat) (start dur : Int)
    (h : 0 ≤ dur) :
    ∀ s ∈ (packTracks tr n start dur start).map musicTimed,
      start ≤ s.startTime ∧ s.endTime ≤ start + dur := by
  intro s hs
  rcases List.mem_map.mp hs with ⟨m, hm, rfl⟩
  have hmem := packTracks_mem tr n start dur start (le_refl _) (by omega) m hm
  exact ⟨hmem.1, hmem.2.2⟩

lemma radioVoice_mapped_mem (vc : List VoiceSegment) (tts : VoiceSegment → Option String) :
    ∀ s ∈ ((pickVoice vc 0 780 ++ pickVoice vc 1 1740).map (applyTTS tts)).map voiceTimed,
      (s.startTime = 780 ∧ s.endTime = 840) ∨ (s.startTime = 1740 ∧ s.endTime = 1800) := by
  intro s hs
  rcases List.mem_map.mp hs with ⟨v, hv, rfl⟩
  rcases radioVoice_mem vc tts v hv with ⟨ht | ht, hd⟩
  · refine Or.inl ⟨ht, ?_⟩
    show v.timing + v.duration = 840
    omega
  · refine Or.inr ⟨ht, ?_⟩
    show v.timing + v.duration = 1800
    omega

lemma radioVoice_mapped_pairwise (vc : List VoiceSegment)
    (tts : VoiceSegment → Option String) :
    (((pickVoice vc 0 780 ++ pickVoice vc 1 1740).map (applyTTS tts)).map
      voiceTimed).Pairwise segDisjoint := by
  rw [List.pairwise_map]
  exact (radioVoice_pairwise vc tts).imp (fun hab => disjoint_of_before hab)

/-- The merged segment list produced by the radio layout is pairwise
non-intersecting and every segment ends at or before second 1800, for every
track list, every strategy-resolver voice output and every TTS outcome. -/
lemma radio_merged_valid (tr : List Track) (vc : List VoiceSegment)
    (tts : VoiceSegment → Option String) (n1 n2 : Nat) :
    ((packTracks tr n1 0 780 0 ++ packTracks tr n2 840 900 840).map musicTimed ++
      ((pickVoice vc 0 780 ++ pickVoice vc 1 1740).map (applyTTS tts)).map
        voiceTimed).Pairwise segDisjoint ∧
    ∀ s ∈ (packTracks tr n1 0 780 0 ++ packTracks tr n2 840 900 840).map musicTimed ++
      ((pickVoice vc 0 780 ++ pickVoice vc 1 1740).map (applyTTS tts)).map voiceTimed,
      s.endTime ≤ 1800 := by
  have hm1 := packTracks_mapped_mem tr n1 0 780 (by norm_num)
  have hm2 := packTracks_mapped_mem tr n2 840 900 (by norm_num)
  have hv := radioVoice_mapped_mem vc tts
  constructor
  · rw [List.map_append, List.pairwise_append]
    refine ⟨?_, radioVoice_mapped_pairwise vc tts, ?_⟩
    · rw [List.pairwise_append]
      refine ⟨packTracks_mapped_pairwise tr n1 0 780 (by norm_num),
        packTracks_mapped_pairwise tr n2 840 900 (by norm_num), ?_⟩
      intro a ha b hb
      have hae := (hm1 a ha).2
      have hbs := (hm2 b hb).1
      exact disjoint_of_before (by omega)
    · intro a ha b hb
      rcases List.mem_append.mp ha with h | h
      · have hae := (hm1 a h).2
        rcases hv b hb with ⟨hbs, _⟩ | ⟨hbs, _⟩ <;>
          exact disjoint_of_before (by omega)
      · have has := (hm2 a h).1
        have hae := (hm2 a h).2
        rcases hv b hb with ⟨_, hbe⟩ | ⟨hbs, _⟩
        · exact disjoint_of_after (by omega)
        · exact disjoint_of_before (by omega)
  · intro s hs
    rcases List.mem_append.mp hs with h | h
    · rw [List.map_append] at h
      rcases List.mem_append.mp h with h2 | h2
      · have := (hm1 s h2).2
        omega
      · have := (hm2 s h2).2
        omega
    · rcases hv s h with ⟨_, hbe⟩ | ⟨_, hbe⟩ <;> omega

/-- A block assembled by the radio layout over a 30-minute span satisfies the
containment / overlap invariant, for every collaborator outcome. -/
lemma radioBlock_literal_valid (tracksL : List Track) (vc : List VoiceSegment)
    (tts : VoiceSegment → Option String) (idStr : String) (st : BlockStrategy)
    (bs gen : Int) :
    blockValid
      { id := idStr, startTime := bs, endTime := bs + 1800000, strategy := st,
        voiceContent := (pickVoice vc 0 780 ++ pickVoice vc 1 1740).map (applyTTS tts),
        musicContent := generateMusicForBlock tracksL [(0, 780), (840, 900)],
        generatedAt := gen } := by
  have hmusic : generateMusicForBlock tracksL [(0, 780), (840, 900)] =
      packTracks tracksL (tracksNeeded 780) 0 780 0 ++
      packTracks tracksL (tracksNeeded 900) 840 900 840 := by
    simp [generateMusicForBlock]
  have hall : allSegments
      { id := idStr, startTime := bs, endTime := bs + 1800000, strategy := st,
        voiceContent := (pickVoice vc 0 780 ++ pickVoice vc 1 1740).map (applyTTS tts),
        musicContent := generateMusicForBlock tracksL [(0, 780), (840, 900)],
        generatedAt := gen } =
      (packTracks tracksL (tracksNeeded 780) 0 780 0 ++
        packTracks tracksL (tracksNeeded 900) 840 900 840).map musicTimed ++
      ((pickVoice vc 0 780 ++ pickVoice vc 1 1740).map (applyTTS tts)).map voiceTimed := by
    rw [allSegments, hmusic]
  have hmerged := radio_merged_valid tracksL vc tts (tracksNeeded 780) (tracksNeeded 900)
  have hdur : blockDurationSeconds
      { id := idStr, startTime := bs, endTime := bs + 1800000, strategy := st,
        voiceContent := (pickVoice vc 0 780 ++ pickVoice vc 1 1740).map (applyTTS tts),
        musicContent := generateMusicForBlock tracksL [(0, 780), (840, 900)],
        generatedAt := gen } = 1800 := by
    unfold blockDurationSeconds
    have hsub : bs + 1800000 - bs = 1800000 := by ring
    show Int.fdiv (bs + 1800000 - bs) 1000 = 1800
    rw [hsub]
    decide
  constructor
  · exact (hall ▸ hmerged.1).perm
      (List.perm_insertionSort (fun x y : TimedSeg => x.startTime ≤ y.startTime) _).symm
      (fun h => segDisjoint_symm h)
  · intro s hs
    rw [hdur]
    have hs2 := (mem_sortedSegments _ s).mp hs
    rw [hall] at hs2
    exact hmerged.2 s hs2

/-- The fallback block over a 30-minute span satisfies the containment /
overlap invariant: its only segment is one music segment `[0, 1800)`. -/
lemma createFallbackBlock_valid (bs : Int) (i : Nat) (now : Int) :
    blockValid (createFallbackBlock bs (bs + 1800000) i now) := by
  have hdur : blockDurationSeconds (createFallbackBlock bs (bs + 1800000) i now) = 1800 := by
    unfold blockDurationSeconds createFallbackBlock
    have hsub : bs + 1800000 - bs = 1800000 := by ring
    show Int.fdiv (bs + 1800000 - bs) 1000 = 1800
    rw [hsub]
    decide
  have hall : allSegments (createFallbackBlock bs (bs + 1800000) i now) =
      [musicTimed
        { timing := 0, duration := 1800,
          spotifyUri := some (demoTracks.getD (i % demoTracks.length) ""),
          playlistId := none, volume := mkRat 7 10, fadeIn := none, fadeOut := none }] := by
    rfl
  constructor
  · refine List.Pairwise.perm ?_
      (List.perm_insertionSort (fun x y : TimedSeg => x.startTime ≤ y.startTime) _).symm
      (fun h => segDisjoint_symm h)
    rw [hall]
    exact List.pairwise_singleton _ _
  · intro s hs
    rw [hdur]
    have hs2 := (mem_sortedSegments _ s).mp hs
    rw [hall] at hs2
    simp only [List.mem_singleton] at hs2
    subst hs2
    show (0 : Int) + 1800 ≤ 1800
    norm_num

/-! ## Claim C7: error behaviour of the strategy resolver -/

/-- Claim C7, amended: `analyzeBlock` performs no local recovery.  A failing
completion call propagates as the same error, and a malformed response (one
that `JSON.parse` or the required field access rejects) surfaces as an error
as well; the fallback lives in the callers, not in the resolver. -/
theorem c7_analyzeBlock_propagates (e : String)
    (parse : String → Option ParsedAnalyzeResponse) (nowMs : Int) (content : String) :
    analyzeBlock (Except.error e) parse nowMs = Except.error e ∧
    (parse content = none →
      analyzeBlock (Except.ok content) parse nowMs = Except.error "malformed response") := by
  constructor
  · rfl
  · intro h
    simp [analyzeBlock, h, Bind.bind, Except.bind, Except.instMonad]

/-- Witness for C7: a timeout error and a malformed response on concrete
inputs. -/
theorem c7_analyzeBlock_propagates_witness :
    analyzeBlock (Except.error "upstream timeout") (fun _ => none) 1 =
      Except.error "upstream timeout" ∧
    analyzeBlock (Except.ok "not json") (fun _ => none) 1 =
      Except.error "malformed response" :=
  ⟨(c7_analyzeBlock_propagates "upstream timeout" (fun _ => none) 1 "not json").1,
   (c7_analyzeBlock_propagates "upstream timeout" (fun _ => none) 1 "not json").2 rfl⟩

/-- Counterexample to C7 as stated: when the content-generation collaborator
errors, `analyzeBlock` does not succeed with a fallback strategy; the failure
escapes to the caller. -/
theorem c7_analyzeBlock_counterexample :
    (analyzeBlock (Except.error "model unavailable") (fun _ => none) 0).isOk = false := by
  decide

/-! ## Claim C8: idempotence of getOrCreateSession while a session is valid -/

/-- Claim C8: while a persisted session `s` with `now < s.expiresAt` exists,
`getOrCreateSession` returns it unchanged and leaves the store untouched, so
two calls in quick succession (both before expiry) return the same session
regardless of the blocks passed to either call. -/
theorem c8_getOrCreateSession_idempotent
    (s : BroadcastSession) (blocks1 blocks2 : List AudioBlock) (now1 now2 : Int)
    (h1 : now1 < s.expiresAt) (h2 : now2 < s.expiresAt) :
    (getOrCreateSession (some (some s)) blocks1 now1).1 = some s ∧
    (getOrCreateSession (some (some s)) blocks1 now1).2 = some (some s) ∧
    (getOrCreateSession (getOrCreateSession (some (some s)) blocks1 now1).2
        blocks2 now2).1 = some s := by
  simp [getOrCreateSession, h1, h2]

/-- Witness for C8 on concrete inputs: two back-to-back calls one second
apart, with different blocks arguments, both return the stored session. -/
theorem c8_getOrCreateSession_idempotent_witness :
    (getOrCreateSession (some (some
        { id := "session-1", startTime := 0, blocks := [], voiceFiles := [],
          createdAt := 0, expiresAt := 43200000 })) [] 1000).1 = some
        { id := "session-1", startTime := 0, blocks := [], voiceFiles := [],
          createdAt := 0, expiresAt := 43200000 } ∧
    (getOrCreateSession (some (some
        { id := "session-1", startTime := 0, blocks := [], voiceFiles := [],
          createdAt := 0, expiresAt := 43200000 })) [] 1000).2 = some (some
        { id := "session-1", startTime := 0, blocks := [], voiceFiles := [],
          createdAt := 0, expiresAt := 43200000 }) ∧
    (getOrCreateSession (getOrCreateSession (some (some
        { id := "session-1", startTime := 0, blocks := [], voiceFiles := [],
          createdAt := 0, expiresAt := 43200000 })) [] 1000).2 [c2GapBlock] 2000).1 = some
        { id := "session-1", startTime := 0, blocks := [], voiceFiles := [],
          createdAt := 0, expiresAt := 43200000 } :=
  c8_getOrCreateSession_idempotent
    { id := "session-1", startTime := 0, blocks := [], voiceFiles := [],
      createdAt := 0, expiresAt := 43200000 } [] [c2GapBlock] 1000 2000
    (by decide) (by decide)

/-! ## Claim C9: the regeneration predicate -/

/-- Claim C9, amended: `shouldRegenerateSession` is a pure expiry check,
inclusive at the boundary (true exactly when `now ≥ expiresAt`, hence true at
`now = expiresAt` and false one second before), and it ignores its
`calendarEventCount` argument entirely; the calendar-versus-keyword
comparison lives only in the separate, uncalled-from-here
`hasCalendarChanged`. -/
theorem c9_shouldRegenerate_time_only (s : BroadcastSession) (c c2 : Nat) (now : Int) :
    (shouldRegenerateSession s c now = true ↔ s.expiresAt ≤ now) ∧
    shouldRegenerateSession s c s.expiresAt = true ∧
    shouldRegenerateSession s c (s.expiresAt - 1000) = false ∧
    shouldRegenerateSession s c now = shouldRegenerateSession s c2 now := by
  refine ⟨by simp [shouldRegenerateSession], by simp [shouldRegenerateSession], ?_, rfl⟩
  simp [shouldRegenerateSession]

/-- Counterexample to C9 as stated: a session holding one block with no
scheduling-keyword voice segments (keyword count 0) checked one second
before expiry against a calendar event count of 5 — the counts differ, yet
`shouldRegenerateSession` returns false, because the calendar heuristic is
not part of this function (it lives only in `hasCalendarChanged`). -/
theorem c9_calendar_heuristic_counterexample :
    shouldRegenerateSession
      { id := "session-9", startTime := 0, blocks := [c2GapBlock], voiceFiles := [],
        createdAt := 0, expiresAt := 43200000 } 5 43199000 = false ∧
    calendarMentions
      ({ id := "session-9", startTime := 0, blocks := [c2GapBlock], voiceFiles := [],
         createdAt := 0, expiresAt := 43200000 } : BroadcastSession).blocks = 0 ∧
    (5 : Nat) ≠ 0 ∧
    (43199000 : Int) <
      ({ id := "session-9", startTime := 0, blocks := [c2GapBlock], voiceFiles := [],
         createdAt := 0, expiresAt := 43200000 } : BroadcastSession).expiresAt := by
  refine ⟨by decide, by decide, by decide, by decide⟩

/-! ## Claim C10: empty blocks with no valid stored session -/

/-- Claim C10: when no stored session is valid (absent, unparseable, or
expired) and the blocks argument is empty, `getOrCreateSession` returns null
and neither creates nor persists anything. -/
theorem c10_empty_blocks_null (stored : Option (Option BroadcastSession)) (now : Int)
    (h : ∀ s, stored = some (some s) → s.expiresAt ≤ now) :
    (getOrCreateSession stored [] now).1 = none ∧
    (getOrCreateSession stored [] now).2 = stored := by
  match stored with
  | none => simp [getOrCreateSession]
  | some none => simp [getOrCreateSession]
  | some (some s) =>
    have hs := h s rfl
    simp [getOrCreateSession, not_lt.mpr hs]

/-- Witness for C10: an expired stored session and an empty blocks list. -/
theorem c10_empty_blocks_null_witness :
    (getOrCreateSession (some (some
        { id := "session-old", startTime := 0, blocks := [], voiceFiles := [],
          createdAt := 0, expiresAt := 1000 })) [] 5000).1 = none ∧
    (getOrCreateSession (some (some
        { id := "session-old", startTime := 0, blocks := [], voiceFiles := [],
          createdAt := 0, expiresAt := 1000 })) [] 5000).2 = some (some
        { id := "session-old", startTime := 0, blocks := [], voiceFiles := [],
          createdAt := 0, expiresAt := 1000 }) :=
  c10_empty_blocks_null (some (some
      { id := "session-old", startTime := 0, blocks := [], voiceFiles := [],
        createdAt := 0, expiresAt := 1000 })) 5000
    (fun s hs => by
      cases hs
      decide)

/-! ## Scheduler case analysis -/

lemma generateRadioBlock_cases (c : Collab) (bs be : Int) (i : Nat) :
    (∃ e, generateRadioBlock c bs be i = .error e) ∨
    ∃ r tracksL, c.analyze = .ok r ∧ c.tracks = .ok tracksL ∧
      generateRadioBlock c bs be i = .ok
        { id := "block-" ++ toString bs, startTime := bs, endTime := be,
          strategy := r.strategy,
          voiceContent := (pickVoice r.voiceContent 0 780 ++
            pickVoice r.voiceContent 1 1740).map (applyTTS c.tts),
          musicContent := generateMusicForBlock tracksL [(0, 780), (840, 900)],
          generatedAt := c.generatedAt } := by
  rcases c with ⟨ev, an, tts, tr, gen⟩
  cases ev with
  | error e => exact Or.inl ⟨e, rfl⟩
  | ok evl =>
    cases an with
    | error e => exact Or.inl ⟨e, rfl⟩
    | ok r =>
      cases tr with
      | error e => exact Or.inl ⟨e, rfl⟩
      | ok tracksL => exact Or.inr ⟨r, tracksL, rfl, rfl, rfl⟩

lemma generateRadioBlock_stamp (c : Collab) (bs be : Int) (i : Nat) (b : AudioBlock)
    (h : generateRadioBlock c bs be i = .ok b) :
    b.startTime = bs ∧ b.endTime = be := by
  rcases generateRadioBlock_cases c bs be i with ⟨e, he⟩ | ⟨r, tracksL, _, _, hok⟩
  · rw [he] at h
    exact Except.noConfusion h
  · rw [hok] at h
    injection h with h2
    rw [← h2]
    exact ⟨rfl, rfl⟩

lemma generateRadioBlock_valid (c : Collab) (bs : Int) (i : Nat) (b : AudioBlock)
    (h : generateRadioBlock c bs (bs + 1800000) i = .ok b) : blockValid b := by
  rcases generateRadioBlock_cases c bs (bs + 1800000) i with ⟨e, he⟩ | ⟨r, tracksL, _, _, hok⟩
  · rw [he] at h
    exact Except.noConfusion h
  · rw [hok] at h
    injection h with h2
    rw [← h2]
    exact radioBlock_literal_valid tracksL r.voiceContent c.tts _ _ bs c.generatedAt

lemma generateRadioBlock_analyze_error (c : Collab) (bs be : Int) (i : Nat) (e : String)
    (h : c.analyze = .error e) :
    ∃ e2, generateRadioBlock c bs be i = .error e2 := by
  rcases c with ⟨ev, an, tts, tr, gen⟩
  cases ev with
  | error e0 => exact ⟨e0, rfl⟩
  | ok evl =>
    cases an with
    | error e0 => exact ⟨e0, rfl⟩
    | ok r => exact Except.noConfusion h

/-- The per-index block of `generateBlockSchedule` (its loop body). -/
def scheduleBlock (collab : Nat → Collab) (now : Int) (i : Nat) : AudioBlock :=
  let blockStart := alignToBlockStart now + Int.ofNat i * 1800000
  let blockEnd := blockStart + 1800000
  match generateRadioBlock (collab i) blockStart blockEnd i with
  | .ok b => b
  | .error _ => createFallbackBlock blockStart blockEnd i now

lemma generateBlockSchedule_eq (collab : Nat → Collab) (now : Int) :
    generateBlockSchedule collab now =
    (List.range BLOCKS_TO_GENERATE).map (scheduleBlock collab now) := rfl

lemma scheduleBlock_times (collab : Nat → Collab) (now : Int) (i : Nat) :
    (scheduleBlock collab now i).startTime = alignToBlockStart now + Int.ofNat i * 1800000 ∧
    (scheduleBlock collab now i).endTime =
      alignToBlockStart now + Int.ofNat i * 1800000 + 1800000 := by
  simp only [scheduleBlock]
  split
  next b hb => exact generateRadioBlock_stamp _ _ _ _ b hb
  next e he => exact ⟨rfl, rfl⟩

lemma scheduleBlock_valid (collab : Nat → Collab) (now : Int) (i : Nat) :
    blockValid (scheduleBlock collab now i) := by
  simp only [scheduleBlock]
  split
  next b hb => exact generateRadioBlock_valid _ _ _ b hb
  next e he => exact createFallbackBlock_valid _ _ _

/-! ## Claim C3: the containment / overlap invariant of generated blocks -/

/-- Claim C3, amended: every block produced by the radio-format scheduler
path (`generateBlockSchedule`, including its fallback blocks) satisfies the
containment / overlap invariant, for every collaborator behaviour; the
block-engine path does not (see the counterexample). -/
theorem c3_schedule_blocks_valid (collab : Nat → Collab) (now : Int) :
    (generateBlockSchedule collab now).Forall blockValid := by
  rw [List.forall_iff_forall_mem, generateBlockSchedule_eq]
  intro b hb
  rcases List.mem_map.mp hb with ⟨i, _, rfl⟩
  exact scheduleBlock_valid collab now i

def engineStrategy : BlockStrategy :=
  { musicStyle := .focus, musicVolume := mkRat 7 10, voiceFrequency := .moderate,
    interruptionLevel := .low, reasoning := "hour plan" }

def engineVoice : VoiceSegment :=
  { id := "voice-ce", timing := 10, content := "calendar check", duration := 30,
    audioUrl := none, priority := .medium }

/-- Collaborator outcomes that make the block-engine path emit an invalid
block: the resolver places a voice segment at offset 10 and the single
recommended track is 3700 seconds long in a 3600-second block. -/
def engineCollabCE : EngineCollab :=
  { profile := .ok (), events := .ok [],
    analyze := .ok { strategy := engineStrategy, voiceContent := [engineVoice],
                     musicRecommendation := "long mix" },
    tts := fun _ => none,
    tracks := .ok [{ uri := "spotify:track:long", duration_ms := 3700000 }],
    fallbackTracks := .ok [], generatedAt := 0 }

/-- The block the engine path produces on `engineCollabCE`. -/
def engineBlockCE : AudioBlock :=
  { id := "block-0", startTime := 0, endTime := 3600000,
    strategy := engineStrategy,
    voiceContent := [engineVoice],
    musicContent :=
      [{ timing := 0, duration := 3700, spotifyUri := some "spotify:track:long",
         playlistId := none, volume := mkRat 7 10, fadeIn := some 2, fadeOut := some 2 }],
    generatedAt := 0 }

/-- Counterexample to C3 as stated: the block-engine path
(`generateAudioBlock` / `createMusicSegments`) produces a block whose music
segment overruns the block duration (3700 > 3600) and intersects the voice
segment at offset 10, violating the invariant. -/
theorem c3_engine_block_counterexample :
    generateAudioBlock engineCollabCE 0 3600000 = Except.ok engineBlockCE ∧
    ¬ blockValid engineBlockCE := by
  constructor
  · rfl
  · decide

/-! ## Claim C4: schedule shape -/

/-- Claim C4: every schedule holds exactly
`windowHours * 60 / blockDurationMinutes` (= 24) blocks, in index order, and
each block ends exactly where the next one starts. -/
theorem c4_schedule_contiguous (collab : Nat → Collab) (now : Int) :
    (generateBlockSchedule collab now).length = BLOCKS_TO_GENERATE ∧
    BLOCKS_TO_GENERATE = PRELOAD_HOURS * 60 / BLOCK_DURATION_MINUTES ∧
    BLOCKS_TO_GENERATE = 24 ∧
    List.Chain' (fun a b => a.endTime = b.startTime) (generateBlockSchedule collab now) := by
  refine ⟨by simp [generateBlockSchedule_eq], rfl, rfl, ?_⟩
  rw [generateBlockSchedule_eq, List.chain'_map]
  have h24 : BLOCKS_TO_GENERATE = Nat.succ 23 := rfl
  rw [h24, List.chain'_range_succ]
  intro m hm
  rw [(scheduleBlock_times collab now m).2, (scheduleBlock_times collab now (m + 1)).1]
  simp only [Int.ofNat_eq_natCast]
  omega

/-! ## Claim C5: boundary alignment of the first block -/

/-- Claim C5, amended: the schedule starts at the 30-minute boundary at or
before `windowStart` (the source floors to the previous boundary rather than
rounding up to the next one): the first block starts at
`alignToBlockStart now`, a multiple of 30 minutes satisfying
`align ≤ now < align + 30min`, spans 30 minutes, and the schedule holds 24
blocks.  In particular a schedule requested at 09:07 starts at 09:00. -/
theorem c5_schedule_alignment (collab : Nat → Collab) (now : Int) :
    (generateBlockSchedule collab now).head?.map AudioBlock.startTime =
      some (alignToBlockStart now) ∧
    (generateBlockSchedule collab now).head?.map AudioBlock.endTime =
      some (alignToBlockStart now + 1800000) ∧
    alignToBlockStart now ≤ now ∧
    now < alignToBlockStart now + 1800000 ∧
    (1800000 : Int) ∣ alignToBlockStart now ∧
    (generateBlockSchedule collab now).length = 24 := by
  have hhead : (generateBlockSchedule collab now).head? =
      some (scheduleBlock collab now 0) := by
    rw [generateBlockSchedule_eq]
    rfl
  have ht := scheduleBlock_times collab now 0
  have halign : alignToBlockStart now = 1800000 * (now / 1800000) := by
    unfold alignToBlockStart
    rw [Int.fdiv_eq_ediv _ (by norm_num)]
  refine ⟨?_, ?_, ?_, ?_, ?_,
    by rw [generateBlockSchedule_eq]; simp [BLOCKS_TO_GENERATE, PRELOAD_HOURS, BLOCK_DURATION_MINUTES]⟩
  · rw [hhead]
    exact congrArg some (by rw [ht.1]; simp only [Int.ofNat_eq_natCast]; omega)
  · rw [hhead]
    exact congrArg some (by rw [ht.2]; simp only [Int.ofNat_eq_natCast]; omega)
  · rw [halign]
    have := Int.ediv_add_emod now 1800000
    have := Int.emod_nonneg now (show (1800000 : Int) ≠ 0 by norm_num)
    omega
  · rw [halign]
    have := Int.ediv_add_emod now 1800000
    have := Int.emod_lt_of_pos now (show (0 : Int) < 1800000 by norm_num)
    omega
  · rw [halign]
    exact dvd_mul_right _ _

/-- The collaborator family that always fails strategy resolution. -/
def failAllCollab : Nat → Collab := fun _ =>
  { events := .ok [], analyze := .error "AI unavailable",
    tts := fun _ => none, tracks := .ok [], generatedAt := 0 }

/-- Counterexample to C5 as stated: at `windowStart` = 09:07 (32820000 ms
into an aligned day) the first block starts at 09:00 (32400000 ms), which is
strictly before `windowStart`, not at the first boundary at/after it
(09:30). -/
theorem c5_alignment_counterexample :
    (generateBlockSchedule failAllCollab 32820000).head?.map AudioBlock.startTime =
      some 32400000 ∧
    (32400000 : Int) < 32820000 ∧
    ¬ (32820000 : Int) ≤ 32400000 := by
  refine ⟨rfl, by decide, by decide⟩

/-! ## Claim C6: fallback resilience of the scheduler -/

/-- Claim C6: when strategy resolution fails for every block, the scheduler
still returns all `BLOCKS_TO_GENERATE` blocks, each the single-track fallback
block for its slot, and every one of them satisfies the containment /
overlap invariant with one music segment `[0, 1800)` and no voice. -/
theorem c6_fallback_resilience (collab : Nat → Collab) (now : Int)
    (h : ∀ i, ∃ e, (collab i).analyze = Except.error e) :
    (generateBlockSchedule collab now).length = BLOCKS_TO_GENERATE ∧
    generateBlockSchedule collab now =
      (List.range BLOCKS_TO_GENERATE).map (fun i =>
        createFallbackBlock (alignToBlockStart now + Int.ofNat i * 1800000)
          (alignToBlockStart now + Int.ofNat i * 1800000 + 1800000) i now) ∧
    (generateBlockSchedule collab now).Forall (fun b =>
      blockValid b ∧ b.voiceContent = [] ∧
      b.musicContent.map (fun m => (m.timing, m.duration)) = [(0, 1800)]) := by
  have hfb : ∀ i, scheduleBlock collab now i =
      createFallbackBlock (alignToBlockStart now + Int.ofNat i * 1800000)
        (alignToBlockStart now + Int.ofNat i * 1800000 + 1800000) i now := by
    intro i
    rcases h i with ⟨e, he⟩
    rcases generateRadioBlock_analyze_error (collab i)
        (alignToBlockStart now + Int.ofNat i * 1800000)
        (alignToBlockStart now + Int.ofNat i * 1800000 + 1800000) i e he with ⟨e2, he2⟩
    simp only [scheduleBlock]
    rw [he2]
  refine ⟨by simp [generateBlockSchedule_eq], ?_, ?_⟩
  · rw [generateBlockSchedule_eq]
    exact List.map_congr_left (fun i _ => hfb i)
  · rw [List.forall_iff_forall_mem]
    intro b hb
    rw [generateBlockSchedule_eq] at hb
    rcases List.mem_map.mp hb with ⟨i, _, rfl⟩
    rw [hfb i]
    exact ⟨createFallbackBlock_valid _ _ _, rfl, rfl⟩

/-- Witness for C6: the always-failing collaborator at `now = 0`. -/
theorem c6_fallback_resilience_witness :
    (generateBlockSchedule failAllCollab 0).length = BLOCKS_TO_GENERATE ∧
    generateBlockSchedule failAllCollab 0 =
      (List.range BLOCKS_TO_GENERATE).map (fun i =>
        createFallbackBlock (alignToBlockStart 0 + Int.ofNat i * 1800000)
          (alignToBlockStart 0 + Int.ofNat i * 1800000 + 1800000) i 0) ∧
    (generateBlockSchedule failAllCollab 0).Forall (fun b =>
      blockValid b ∧ b.voiceContent = [] ∧
      b.musicContent.map (fun m => (m.timing, m.duration)) = [(0, 1800)]) :=
  c6_fallback_resilience failAllCollab 0 (fun _ => ⟨"AI unavailable", rfl⟩)

end Hymn
